import Mathlib

/-!
Shallow embedding of the phone-number checker `src/streamlit_app.py`.

The pure classification logic (`analyze_phone_number`, `identify_caller_type`,
`identify_area`, `identify_number_type`, the report-intake logic of the
report form, and the JSON-fallback stage of the two Gemini adapters) is
translated into executable Lean definitions.  Session state
(`st.session_state.scam_database`, `st.session_state.check_history`) is
passed explicitly; the external Gemini network call is represented by the
value it returns (an `Option` parameter), and `json.loads` by an abstract
parse function parameter, since both are outside the program.
-/

/-- A user-submitted report case (`reported_cases` entries, lines 708-713). -/
structure ReportCase where
  number : String
  description : String
  timestamp : String
  reports : Nat
  deriving Repr, DecidableEq

/-- The session scam database (lines 31-46).  The four configured warning
regexes `^0120`, `^0570`, `^0990`, `^\+.*` are all anchored literal-prefix
patterns, so `warning_patterns` holds the literal prefixes `"0120"`,
`"0570"`, `"0990"`, `"+"` and a pattern match is a prefix test. -/
structure ScamDatabase where
  known_scam_numbers : List String
  suspicious_prefixes : List String
  warning_patterns : List String
  safe_prefixes : List String
  reported_cases : List ReportCase
  deriving Repr, DecidableEq

/-- The caller-type classification record built by `identify_caller_type`. -/
structure CallerInfo where
  type : String
  confidence : String
  details : List String
  category : String
  deriving Repr, DecidableEq

/-- The nested `caller_identification` object of a Gemini number analysis. -/
structure CallerIdentification where
  most_likely : String
  confidence : String
  reasoning : String
  deriving Repr, DecidableEq

/-- A parsed Gemini number-analysis payload (the JSON shape requested at
lines 89-104 and produced by the fallback at lines 113-127). -/
structure AiAnalysis where
  caller_identification : CallerIdentification
  business_type : String
  ai_risk_assessment : String
  confidence_score : Nat
  fraud_patterns : List String
  similar_cases : List String
  recommendations : List String
  conversation_warnings : List String
  summary : String
  deriving Repr, DecidableEq

/-- A Gemini conversation-analysis payload (lines 154-161).  Fields are
optional because the parse-failure fallback at line 168 returns a dict
holding only `explanation`. -/
structure ConversationAnalysis where
  scam_probability : Option Nat
  fraud_type : Option String
  dangerous_keywords : Option (List String)
  immediate_actions : Option (List String)
  should_report : Option Bool
  explanation : Option String
  deriving Repr, DecidableEq

/-- One analysis result record (lines 308-318). -/
structure AnalysisResult where
  original : String
  normalized : String
  risk_level : String
  warnings : List String
  details : List String
  recommendations : List String
  timestamp : String
  ai_analysis : Option AiAnalysis
  caller_type : Option CallerInfo
  deriving Repr, DecidableEq

/-- A character matched by the separator class `[-\s()]` of line 306
(hyphen, ASCII whitespace, parentheses). -/
def isSeparator (c : Char) : Bool :=
  c == '-' || c == '(' || c == ')' ||
  c == ' ' || c == '\t' || c == '\n' || c == '\r' || c == '\x0b' || c == '\x0c'

/-- `re.sub(r'[-\s()]+', '', number)` (line 306): delete every separator
character, keep everything else. -/
def normalizeNumber (s : String) : String :=
  String.mk (s.data.filter (fun c => !isSeparator c))

/-- The `str.startswith` prefix test, phrased on the character list so it
evaluates by structural recursion. -/
def strStartsWith (s p : String) : Bool := p.data.isPrefixOf s.data

/-- The emergency numbers `["110", "119", "118"]` (lines 183 and 325). -/
def emergencyNumbers : List String := ["110", "119", "118"]

/-- The `government_patterns` dict (lines 191-197), in insertion order. -/
def governmentPatterns : List (String × String) := [
  ("03-3581", "官公庁（霞が関周辺）"),
  ("03-5253", "厚生労働省・文部科学省エリア"),
  ("03-3580", "警察庁周辺"),
  ("03-5321", "都庁・都の機関"),
  ("06-6941", "大阪府庁周辺")]

/-- The `bank_patterns` dict (lines 208-213), in insertion order. -/
def bankPatterns : List (String × String) := [
  ("0120-86", "三菱UFJ銀行系"),
  ("0120-77", "三井住友銀行系"),
  ("0120-65", "みずほ銀行系"),
  ("0120-39", "ゆうちょ銀行系")]

/-- The `area_codes` dict of `identify_area` (lines 278-281). -/
def areaCodes : List (String × String) := [
  ("03", "東京"), ("06", "大阪"), ("052", "名古屋"),
  ("011", "札幌"), ("092", "福岡"), ("075", "京都")]

/-- `identify_area` (lines 276-285): first area code that prefixes the
number, else unknown. -/
def identifyArea (number : String) : String :=
  match areaCodes.find? (fun p => strStartsWith number p.1) with
  | some p => p.2
  | none => "不明"

/-- `identify_number_type` (lines 287-302). -/
def identifyNumberType (normalized : String) : String :=
  if strStartsWith normalized "0120" || strStartsWith normalized "0800" then "フリーダイヤル"
  else if strStartsWith normalized "050" then "IP電話"
  else if strStartsWith normalized "090" || strStartsWith normalized "080" || strStartsWith normalized "070" then "携帯電話"
  else if strStartsWith normalized "0570" then "ナビダイヤル"
  else if strStartsWith normalized "0" then "固定電話"
  else if strStartsWith normalized "+" then "国際電話"
  else "不明"

/-- `identify_caller_type` (lines 173-274): an ordered first-match-wins
rule chain over the raw and normalized number. -/
def identifyCallerType (number normalized : String) : CallerInfo :=
  if normalized ∈ emergencyNumbers then
    { type := "緊急通報番号", confidence := "確実",
      details := ["警察・消防・海上保安庁"], category := "公的機関" }
  else match governmentPatterns.find? (fun p => strStartsWith number p.1) with
  | some p =>
    { type := "公的機関", confidence := "高", details := [p.2], category := "公的機関" }
  | none => match bankPatterns.find? (fun p => strStartsWith number p.1) with
    | some p =>
      { type := "金融機関", confidence := "中",
        details := [p.2, "⚠️ 本物か必ず確認してください"], category := "一般企業" }
    | none =>
      if strStartsWith normalized "0120" || strStartsWith normalized "0800" then
        { type := "企業カスタマーサポート", confidence := "中",
          details := ["フリーダイヤル（通話無料）", "企業からの連絡が多い"],
          category := "一般企業" }
      else if strStartsWith normalized "0570" then
        { type := "企業ナビダイヤル", confidence := "中",
          details := ["通話料有料（高額になることも）", "企業のサポートセンター等"],
          category := "一般企業" }
      else if strStartsWith normalized "050" then
        { type := "IP電話利用者", confidence := "低",
          details := ["個人/企業どちらも可能性あり", "IP電話は匿名性が高い",
                      "⚠️ 詐欺に悪用されやすい"],
          category := "不明" }
      else if strStartsWith normalized "090" || strStartsWith normalized "080" || strStartsWith normalized "070" then
        { type := "個人携帯電話", confidence := "高",
          details := ["個人契約の携帯電話", "まれに法人契約もあり"], category := "個人" }
      else if strStartsWith normalized "020" then
        { type := "ポケベル・M2M", confidence := "高",
          details := ["IoT機器等の通信"], category := "特殊" }
      else if strStartsWith normalized "0" then
        if identifyArea number ≠ "不明" then
          { type := "固定電話（企業または個人宅）", confidence := "中",
            details := ["地域: " ++ identifyArea number, "企業のオフィスまたは個人宅"],
            category := "企業または個人" }
        else
          { type := "固定電話", confidence := "低", details := [], category := "不明" }
      else if strStartsWith number "+" || strStartsWith normalized "010" then
        { type := "国際電話", confidence := "確実",
          details := ["海外からの着信", "⚠️ 国際詐欺に注意"], category := "国際" }
      else
        { type := "不明", confidence := "低", details := [], category := "その他" }

/-- The freshly initialised result record of lines 308-318 (timestamp is
passed in for the impure `datetime.now()`). -/
def initResult (number ts : String) : AnalysisResult :=
  { original := number, normalized := normalizeNumber number, risk_level := "安全",
    warnings := [], details := [], recommendations := [], timestamp := ts,
    ai_analysis := none, caller_type := none }

/-- Known-scam-number check (lines 330-335): exact membership of the RAW
input in the list. -/
def scamCheck (db : ScamDatabase) (number : String) (r : AnalysisResult) : AnalysisResult :=
  if number ∈ db.known_scam_numbers then
    { r with
      risk_level := "危険",
      warnings := r.warnings ++ ["🚨 既知の詐欺電話番号です！"],
      recommendations := r.recommendations ++
        ["❌ 絶対に応答しないでください", "📞 着信拒否設定を推奨"] }
  else r

/-- One iteration of the reported-case loop (lines 338-342): exact equality
of the case number with the RAW input. -/
def reportedStep (number : String) (r : AnalysisResult) (c : ReportCase) : AnalysisResult :=
  if c.number = number then
    { r with
      risk_level := "危険",
      warnings := r.warnings ++ ["⚠️ " ++ toString c.reports ++ "件の通報あり"],
      details := r.details ++ ["通報内容: " ++ c.description] }
  else r

/-- The reported-case loop (lines 337-342). -/
def reportedCheck (db : ScamDatabase) (number : String) (r : AnalysisResult) : AnalysisResult :=
  db.reported_cases.foldl (reportedStep number) r

/-- One iteration of the suspicious-prefix loop (lines 345-350), matching
against the normalized number. -/
def prefixStep (normalized : String) (r : AnalysisResult) (p : String) : AnalysisResult :=
  if strStartsWith normalized p then
    { r with
      risk_level := if r.risk_level = "安全" then "注意" else r.risk_level,
      warnings := r.warnings ++ ["⚠️ 疑わしいプレフィックス: " ++ p],
      recommendations := r.recommendations ++ ["慎重に対応してください"] }
  else r

/-- The suspicious-prefix loop (lines 344-350). -/
def prefixCheck (db : ScamDatabase) (normalized : String) (r : AnalysisResult) : AnalysisResult :=
  db.suspicious_prefixes.foldl (prefixStep normalized) r

/-- One iteration of the warning-pattern loop (lines 353-357).  The
configured patterns are anchored prefix regexes matched with `re.match`
against the RAW input, i.e. a `startsWith` test. -/
def patternStep (number : String) (r : AnalysisResult) (p : String) : AnalysisResult :=
  if strStartsWith number p then
    { r with
      risk_level := if r.risk_level = "安全" then "注意" else r.risk_level,
      warnings := r.warnings ++ ["⚠️ 警戒が必要なパターンです"] }
  else r

/-- The warning-pattern loop (lines 352-357). -/
def patternCheck (db : ScamDatabase) (number : String) (r : AnalysisResult) : AnalysisResult :=
  db.warning_patterns.foldl (patternStep number) r

/-- The international-call check (lines 359-364). -/
def internationalCheck (number normalized : String) (r : AnalysisResult) : AnalysisResult :=
  if strStartsWith number "+" || strStartsWith normalized "010" then
    let r1 := { r with
      warnings := r.warnings ++ ["🌍 国際電話です"],
      recommendations := r.recommendations ++ ["身に覚えがない場合は応答しない"] }
    if r1.risk_level = "安全" then { r1 with risk_level := "注意" } else r1
  else r

/-- The detail lines appended at lines 366-368. -/
def detailsAppend (number normalized : String) (r : AnalysisResult) : AnalysisResult :=
  { r with details := r.details ++
      ["📱 番号タイプ: " ++ identifyNumberType normalized,
       "📍 地域: " ++ identifyArea number] }

/-- The safe-case recommendations (lines 370-373). -/
def safeRecommendations (r : AnalysisResult) : AnalysisResult :=
  if r.risk_level = "安全" then
    { r with recommendations := r.recommendations ++
        ["✅ 特に問題は検出されませんでした", "💡 不審な要求には注意してください"] }
  else r

/-- The AI-enrichment step (lines 375-383).  `ai_return` is the value the
external `analyze_with_gemini` call would return (`none` models both a
disabled call and a `None` return). -/
def aiStep (use_ai ai_enabled : Bool) (ai_return : Option AiAnalysis)
    (r : AnalysisResult) : AnalysisResult :=
  if use_ai && ai_enabled then
    match ai_return with
    | some ai =>
      let r1 := { r with ai_analysis := some ai }
      if ai.ai_risk_assessment = "危険" ∧ r1.risk_level ≠ "危険" then
        { r1 with
          risk_level := "危険",
          warnings := r1.warnings ++
            ["🤖 AI判定: 危険 (信頼度 " ++ toString ai.confidence_score ++ "%)"] }
      else r1
    | none => r
  else r

/-- The non-emergency rule chain of `analyze_phone_number` (lines 330-383),
in source order: known-scam check, reported-case loop, suspicious-prefix
loop, warning-pattern loop, international check, detail lines, safe-case
recommendations, AI enrichment. -/
def runChecks (db : ScamDatabase) (number normalized : String)
    (use_ai ai_enabled : Bool) (ai_return : Option AiAnalysis)
    (r : AnalysisResult) : AnalysisResult :=
  aiStep use_ai ai_enabled ai_return
    (safeRecommendations
      (detailsAppend number normalized
        (internationalCheck number normalized
          (patternCheck db number
            (prefixCheck db normalized
              (reportedCheck db number
                (scamCheck db number r)))))))

/-- `analyze_phone_number` (lines 304-387), with the session state passed
explicitly.  Returns the result record and the new check history; note that
the emergency early return (line 328) bypasses the history append of
line 386. -/
def analyzePhoneNumber (db : ScamDatabase) (number ts : String)
    (use_ai ai_enabled : Bool) (ai_return : Option AiAnalysis)
    (history : List AnalysisResult) : AnalysisResult × List AnalysisResult :=
  let normalized := normalizeNumber number
  let r0 := { initResult number ts with
    caller_type := some (identifyCallerType number normalized) }
  if normalized ∈ emergencyNumbers then
    ({ r0 with
       risk_level := "緊急",
       details := r0.details ++ ["✅ 緊急通報番号です"] }, history)
  else
    let r8 := runChecks db number normalized use_ai ai_enabled ai_return r0
    (r8, history ++ [r8])

/-- The scam database the session starts with (lines 31-46). -/
def defaultScamDatabase : ScamDatabase :=
  { known_scam_numbers :=
      ["03-1234-5678", "0120-999-999", "050-1111-2222", "090-1234-5678"],
    suspicious_prefixes := ["050", "070", "+675", "+234", "+1-876"],
    warning_patterns := ["0120", "0570", "0990", "+"],
    safe_prefixes := ["110", "119", "118"],
    reported_cases := [] }

/-- Rank of a risk level in the escalation order 安全 < 注意 < 危険 < 緊急. -/
def riskRank (level : String) : Nat :=
  if level = "注意" then 1
  else if level = "危険" then 2
  else if level = "緊急" then 3
  else 0

/-- Update the first case whose number matches, incrementing its count and
appending the follow-up description (lines 721-723: the count is bumped
before being interpolated into the appended text). -/
def appendFollowUp (number detail : String) : List ReportCase → List ReportCase
  | [] => []
  | c :: rest =>
    if c.number = number then
      { c with
        reports := c.reports + 1,
        description := c.description ++ "\n[追加通報 " ++ toString (c.reports + 1) ++ "] " ++ detail } :: rest
    else c :: appendFollowUp number detail rest

/-- Report intake (lines 707-725): a blank number is rejected by the form
guard; an existing case (first match, as in the `for`/`break` scan of
lines 715-719) is updated in place, otherwise a fresh case with count one
is appended. -/
def submitReport (cases : List ReportCase) (number detail category ts : String) :
    List ReportCase :=
  if number = "" then cases
  else if cases.any (fun c => c.number == number) then appendFollowUp number detail cases
  else cases ++ [{ number := number,
                   description := "[" ++ category ++ "] " ++ detail,
                   timestamp := ts, reports := 1 }]

/-- Python string slicing `text[:200]` (lines 126 and 168): the first 200
characters (code points). -/
def takeChars (s : String) (n : Nat) : String := String.mk (s.data.take n)

/-- The stub record returned by `analyze_with_gemini` when `json.loads`
fails (lines 113-127). -/
def geminiFallback (responseText : String) : AiAnalysis :=
  { caller_identification :=
      { most_likely := "不明", confidence := "低", reasoning := "分析失敗" },
    business_type := "不明", ai_risk_assessment := "不明", confidence_score := 0,
    fraud_patterns := [], similar_cases := [], recommendations := [],
    conversation_warnings := [], summary := takeChars responseText 200 }

/-- The parse stage of `analyze_with_gemini` (lines 109-127): `json.loads`
is abstracted as `parse`; a parse failure yields the stub record. -/
def analyzeWithGeminiParse (parse : String → Option AiAnalysis)
    (responseText : String) : AiAnalysis :=
  match parse responseText with
  | some ai => ai
  | none => geminiFallback responseText

/-- The fallback dict of `analyze_conversation_with_gemini` (line 168):
only `explanation` is populated, with the truncated raw text. -/
def conversationFallback (responseText : String) : ConversationAnalysis :=
  { scam_probability := none, fraud_type := none, dangerous_keywords := none,
    immediate_actions := none, should_report := none,
    explanation := some (takeChars responseText 200) }

/-- The parse stage of `analyze_conversation_with_gemini` (lines 164-168). -/
def analyzeConversationParse (parse : String → Option ConversationAnalysis)
    (responseText : String) : ConversationAnalysis :=
  match parse responseText with
  | some a => a
  | none => conversationFallback responseText

/-! ## Helper lemmas about the rule chain -/

/-- `normalizeNumber` at the level of character lists. -/
theorem normalizeNumber_data (s : String) :
    (normalizeNumber s).data = s.data.filter (fun c => !isSeparator c) := rfl

/-- Every rule of the chain either keeps the risk level, sets it to 危険,
or upgrades 安全 to 注意: instance for `scamCheck`. -/
theorem scamCheck_risk_cases (db : ScamDatabase) (number : String) (r : AnalysisResult) :
    (scamCheck db number r).risk_level = r.risk_level ∨
    (scamCheck db number r).risk_level = "危険" ∨
    (r.risk_level = "安全" ∧ (scamCheck db number r).risk_level = "注意") := by
  unfold scamCheck
  split
  · right; left; rfl
  · left; rfl

/-- Risk-level case analysis for one reported-case iteration. -/
theorem reportedStep_risk_cases (number : String) (r : AnalysisResult) (c : ReportCase) :
    (reportedStep number r c).risk_level = r.risk_level ∨
    (reportedStep number r c).risk_level = "危険" ∨
    (r.risk_level = "安全" ∧ (reportedStep number r c).risk_level = "注意") := by
  unfold reportedStep
  split
  · right; left; rfl
  · left; rfl

/-- Risk-level case analysis for one suspicious-prefix iteration. -/
theorem prefixStep_risk_cases (normalized : String) (r : AnalysisResult) (p : String) :
    (prefixStep normalized r p).risk_level = r.risk_level ∨
    (prefixStep normalized r p).risk_level = "危険" ∨
    (r.risk_level = "安全" ∧ (prefixStep normalized r p).risk_level = "注意") := by
  unfold prefixStep
  split
  · by_cases h : r.risk_level = "安全"
    · right; right; exact ⟨h, by simp [h]⟩
    · left; simp [h]
  · left; rfl

/-- Risk-level case analysis for one warning-pattern iteration. -/
theorem patternStep_risk_cases (number : String) (r : AnalysisResult) (p : String) :
    (patternStep number r p).risk_level = r.risk_level ∨
    (patternStep number r p).risk_level = "危険" ∨
    (r.risk_level = "安全" ∧ (patternStep number r p).risk_level = "注意") := by
  unfold patternStep
  split
  · by_cases h : r.risk_level = "安全"
    · right; right; exact ⟨h, by simp [h]⟩
    · left; simp [h]
  · left; rfl

/-- Risk-level case analysis for the international-call check. -/
theorem internationalCheck_risk_cases (number normalized : String) (r : AnalysisResult) :
    (internationalCheck number normalized r).risk_level = r.risk_level ∨
    (internationalCheck number normalized r).risk_level = "危険" ∨
    (r.risk_level = "安全" ∧ (internationalCheck number normalized r).risk_level = "注意") := by
  unfold internationalCheck
  split
  · by_cases h : r.risk_level = "安全"
    · right; right; exact ⟨h, by simp [h]⟩
    · left; simp [h]
  · left; rfl

/-- The detail-appending step never touches the risk level. -/
theorem detailsAppend_risk (number normalized : String) (r : AnalysisResult) :
    (detailsAppend number normalized r).risk_level = r.risk_level := rfl

/-- The safe-case recommendation step never touches the risk level. -/
theorem safeRecommendations_risk (r : AnalysisResult) :
    (safeRecommendations r).risk_level = r.risk_level := by
  unfold safeRecommendations
  split
  · rfl
  · rfl

/-- Risk-level case analysis for the AI-enrichment step. -/
theorem aiStep_risk_cases (use_ai ai_enabled : Bool) (ai_return : Option AiAnalysis)
    (r : AnalysisResult) :
    (aiStep use_ai ai_enabled ai_return r).risk_level = r.risk_level ∨
    (aiStep use_ai ai_enabled ai_return r).risk_level = "危険" ∨
    (r.risk_level = "安全" ∧ (aiStep use_ai ai_enabled ai_return r).risk_level = "注意") := by
  unfold aiStep
  cases ai_return with
  | none =>
    split
    · left; rfl
    · left; rfl
  | some ai =>
    split
    · dsimp only
      split
      · right; left; rfl
      · left; rfl
    · left; rfl

/-- `scamCheck` only ever appends to the warnings list. -/
theorem scamCheck_warnings_mono (db : ScamDatabase) (number : String)
    (r : AnalysisResult) (w : String) (h : w ∈ r.warnings) :
    w ∈ (scamCheck db number r).warnings := by
  unfold scamCheck
  split
  · exact List.mem_append_left _ h
  · exact h

/-- One reported-case iteration only ever appends to the warnings list. -/
theorem reportedStep_warnings_mono (number : String) (r : AnalysisResult)
    (c : ReportCase) (w : String) (h : w ∈ r.warnings) :
    w ∈ (reportedStep number r c).warnings := by
  unfold reportedStep
  split
  · exact List.mem_append_left _ h
  · exact h

/-- One suspicious-prefix iteration only ever appends to the warnings list. -/
theorem prefixStep_warnings_mono (normalized : String) (r : AnalysisResult)
    (p : String) (w : String) (h : w ∈ r.warnings) :
    w ∈ (prefixStep normalized r p).warnings := by
  unfold prefixStep
  split
  · exact List.mem_append_left _ h
  · exact h

/-- One warning-pattern iteration only ever appends to the warnings list. -/
theorem patternStep_warnings_mono (number : String) (r : AnalysisResult)
    (p : String) (w : String) (h : w ∈ r.warnings) :
    w ∈ (patternStep number r p).warnings := by
  unfold patternStep
  split
  · exact List.mem_append_left _ h
  · exact h

/-- The international-call check only ever appends to the warnings list. -/
theorem internationalCheck_warnings_mono (number normalized : String)
    (r : AnalysisResult) (w : String) (h : w ∈ r.warnings) :
    w ∈ (internationalCheck number normalized r).warnings := by
  unfold internationalCheck
  split
  · dsimp only
    split
    · exact List.mem_append_left _ h
    · exact List.mem_append_left _ h
  · exact h

/-- The detail-appending step never touches the warnings list. -/
theorem detailsAppend_warnings (number normalized : String) (r : AnalysisResult) :
    (detailsAppend number normalized r).warnings = r.warnings := rfl

/-- The safe-case recommendation step never touches the warnings list. -/
theorem safeRecommendations_warnings (r : AnalysisResult) :
    (safeRecommendations r).warnings = r.warnings := by
  unfold safeRecommendations
  split
  · rfl
  · rfl

/-- The AI-enrichment step only ever appends to the warnings list. -/
theorem aiStep_warnings_mono (use_ai ai_enabled : Bool) (ai_return : Option AiAnalysis)
    (r : AnalysisResult) (w : String) (h : w ∈ r.warnings) :
    w ∈ (aiStep use_ai ai_enabled ai_return r).warnings := by
  unfold aiStep
  cases ai_return with
  | none =>
    split
    · exact h
    · exact h
  | some ai =>
    split
    · dsimp only
      split
      · exact List.mem_append_left _ h
      · exact h
    · exact h

/-- A non-emergency risk level has rank at most that of 危険. -/
theorem riskRank_le_two {r : String} (h : r ≠ "緊急") : riskRank r ≤ 2 := by
  unfold riskRank
  split_ifs <;> omega

/-- A rule that keeps the level, sets 危険, or upgrades 安全 to 注意 never
reaches 緊急. -/
theorem ne_emergency_of_cases {r s : String} (h : r ≠ "緊急")
    (hc : s = r ∨ s = "危険" ∨ (r = "安全" ∧ s = "注意")) : s ≠ "緊急" := by
  rcases hc with h1 | h1 | ⟨_, h1⟩
  · rw [h1]; exact h
  · rw [h1]; decide
  · rw [h1]; decide

/-- A rule that keeps the level, sets 危険, or upgrades 安全 to 注意 never
lowers the rank of a non-emergency level. -/
theorem rank_mono_of_cases {r s : String} (h : r ≠ "緊急")
    (hc : s = r ∨ s = "危険" ∨ (r = "安全" ∧ s = "注意")) :
    riskRank r ≤ riskRank s := by
  rcases hc with h1 | h1 | ⟨h2, h1⟩
  · rw [h1]
  · rw [h1]
    calc riskRank r ≤ 2 := riskRank_le_two h
    _ = riskRank "危険" := by decide
  · rw [h1, h2]
    decide

/-- Such a rule preserves an already-assigned 危険 level. -/
theorem danger_pres_of_cases {r s : String} (h : r = "危険")
    (hc : s = r ∨ s = "危険" ∨ (r = "安全" ∧ s = "注意")) : s = "危険" := by
  rcases hc with h1 | h1 | ⟨h2, h1⟩
  · rw [h1, h]
  · exact h1
  · rw [h] at h2; exact absurd h2 (by decide)

/-- Such a rule preserves a level that is at least 注意. -/
theorem caution_pres_of_cases {r s : String} (h : r = "注意" ∨ r = "危険")
    (hc : s = r ∨ s = "危険" ∨ (r = "安全" ∧ s = "注意")) :
    s = "注意" ∨ s = "危険" := by
  rcases hc with h1 | h1 | ⟨h2, h1⟩
  · rw [h1]; exact h
  · right; exact h1
  · left; exact h1

/-- Such a rule keeps the level inside the working set 安全/注意/危険. -/
theorem levels_pres_of_cases {r s : String}
    (h : r = "安全" ∨ r = "注意" ∨ r = "危険")
    (hc : s = r ∨ s = "危険" ∨ (r = "安全" ∧ s = "注意")) :
    s = "安全" ∨ s = "注意" ∨ s = "危険" := by
  rcases hc with h1 | h1 | ⟨h2, h1⟩
  · rw [h1]; exact h
  · right; right; exact h1
  · right; left; exact h1

/-- Any property preserved by the loop body is preserved by the loop. -/
theorem foldl_invariant {α : Type} (P : AnalysisResult → Prop)
    (f : AnalysisResult → α → AnalysisResult)
    (hf : ∀ r a, P r → P (f r a)) :
    ∀ (l : List α) (r : AnalysisResult), P r → P (List.foldl f r l) := by
  intro l
  induction l with
  | nil => intro r h; exact h
  | cons a l ih => intro r h; exact ih (f r a) (hf r a h)

/-- A loop whose body satisfies the risk-level case analysis never lowers
the rank of a non-emergency level. -/
theorem foldl_rank_mono {α : Type} (f : AnalysisResult → α → AnalysisResult)
    (hc : ∀ r a, (f r a).risk_level = r.risk_level ∨ (f r a).risk_level = "危険" ∨
          (r.risk_level = "安全" ∧ (f r a).risk_level = "注意")) :
    ∀ (l : List α) (r : AnalysisResult), r.risk_level ≠ "緊急" →
      riskRank r.risk_level ≤ riskRank (List.foldl f r l).risk_level := by
  intro l
  induction l with
  | nil => intro r _; exact le_refl _
  | cons a l ih =>
    intro r h
    exact le_trans (rank_mono_of_cases h (hc r a))
      (ih (f r a) (ne_emergency_of_cases h (hc r a)))

/-- On an emergency number, `analyze_phone_number` returns the record of
lines 326-328 and leaves the history untouched (the early return skips the
append of line 386). -/
theorem analyzePhoneNumber_emergency (db : ScamDatabase) (number ts : String)
    (use_ai ai_enabled : Bool) (ai_return : Option AiAnalysis)
    (history : List AnalysisResult) (h : normalizeNumber number ∈ emergencyNumbers) :
    analyzePhoneNumber db number ts use_ai ai_enabled ai_return history =
      ({ initResult number ts with
         caller_type := some (identifyCallerType number (normalizeNumber number)),
         risk_level := "緊急",
         details := ["✅ 緊急通報番号です"] }, history) := by
  simp only [analyzePhoneNumber]
  rw [if_pos h]
  simp [initResult]

/-- On a non-emergency number, `analyze_phone_number` runs the full rule
chain and appends the result to the history. -/
theorem analyzePhoneNumber_nonemergency (db : ScamDatabase) (number ts : String)
    (use_ai ai_enabled : Bool) (ai_return : Option AiAnalysis)
    (history : List AnalysisResult) (h : normalizeNumber number ∉ emergencyNumbers) :
    analyzePhoneNumber db number ts use_ai ai_enabled ai_return history =
      (runChecks db number (normalizeNumber number) use_ai ai_enabled ai_return
         { initResult number ts with
           caller_type := some (identifyCallerType number (normalizeNumber number)) },
       history ++
         [runChecks db number (normalizeNumber number) use_ai ai_enabled ai_return
            { initResult number ts with
              caller_type := some (identifyCallerType number (normalizeNumber number)) }]) := by
  simp only [analyzePhoneNumber]
  rw [if_neg h]

/-- After the known-scam check fires, every later rule of the chain keeps
the 危険 level and the scam warning string. -/
theorem runChecks_danger (db : ScamDatabase) (number normalized : String)
    (use_ai ai_enabled : Bool) (ai_return : Option AiAnalysis) (r : AnalysisResult)
    (hmem : number ∈ db.known_scam_numbers) :
    (runChecks db number normalized use_ai ai_enabled ai_return r).risk_level = "危険" ∧
    "🚨 既知の詐欺電話番号です！" ∈
      (runChecks db number normalized use_ai ai_enabled ai_return r).warnings := by
  have h1 : (scamCheck db number r).risk_level = "危険" ∧
      "🚨 既知の詐欺電話番号です！" ∈ (scamCheck db number r).warnings := by
    unfold scamCheck
    rw [if_pos hmem]
    exact ⟨rfl, by simp⟩
  have h2 := foldl_invariant
    (fun x => x.risk_level = "危険" ∧ "🚨 既知の詐欺電話番号です！" ∈ x.warnings)
    (reportedStep number)
    (fun x c hx => ⟨danger_pres_of_cases hx.1 (reportedStep_risk_cases number x c),
      reportedStep_warnings_mono number x c _ hx.2⟩)
    db.reported_cases _ h1
  have h3 := foldl_invariant
    (fun x => x.risk_level = "危険" ∧ "🚨 既知の詐欺電話番号です！" ∈ x.warnings)
    (prefixStep normalized)
    (fun x p hx => ⟨danger_pres_of_cases hx.1 (prefixStep_risk_cases normalized x p),
      prefixStep_warnings_mono normalized x p _ hx.2⟩)
    db.suspicious_prefixes _ h2
  have h4 := foldl_invariant
    (fun x => x.risk_level = "危険" ∧ "🚨 既知の詐欺電話番号です！" ∈ x.warnings)
    (patternStep number)
    (fun x p hx => ⟨danger_pres_of_cases hx.1 (patternStep_risk_cases number x p),
      patternStep_warnings_mono number x p _ hx.2⟩)
    db.warning_patterns _ h3
  have h5 : (internationalCheck number normalized
        (patternCheck db number (prefixCheck db normalized
          (reportedCheck db number (scamCheck db number r))))).risk_level = "危険" ∧
      "🚨 既知の詐欺電話番号です！" ∈ (internationalCheck number normalized
        (patternCheck db number (prefixCheck db normalized
          (reportedCheck db number (scamCheck db number r))))).warnings :=
    ⟨danger_pres_of_cases h4.1 (internationalCheck_risk_cases number normalized _),
     internationalCheck_warnings_mono number normalized _ _ h4.2⟩
  have h6 : (safeRecommendations (detailsAppend number normalized
        (internationalCheck number normalized
          (patternCheck db number (prefixCheck db normalized
            (reportedCheck db number (scamCheck db number r))))))).risk_level = "危険" ∧
      "🚨 既知の詐欺電話番号です！" ∈ (safeRecommendations (detailsAppend number normalized
        (internationalCheck number normalized
          (patternCheck db number (prefixCheck db normalized
            (reportedCheck db number (scamCheck db number r))))))).warnings := by
    rw [safeRecommendations_risk, safeRecommendations_warnings,
        detailsAppend_risk, detailsAppend_warnings]
    exact h5
  exact ⟨danger_pres_of_cases h6.1 (aiStep_risk_cases use_ai ai_enabled ai_return _),
    aiStep_warnings_mono use_ai ai_enabled ai_return _ _ h6.2⟩

/-- One suspicious-prefix iteration on a matching prefix leaves the level
at least 注意 (given it starts in the working set). -/
theorem prefixStep_establishes (normalized : String) (r : AnalysisResult) (p : String)
    (hr : r.risk_level = "安全" ∨ r.risk_level = "注意" ∨ r.risk_level = "危険")
    (hm : strStartsWith normalized p = true) :
    (prefixStep normalized r p).risk_level = "注意" ∨
    (prefixStep normalized r p).risk_level = "危険" := by
  unfold prefixStep
  rw [if_pos hm]
  rcases hr with h | h | h
  · left; simp [h]
  · left; simp [h]
  · right; simp [h]

/-- If some configured suspicious prefix matches, the prefix loop leaves
the risk level at least 注意. -/
theorem prefixCheck_establishes (normalized : String) :
    ∀ (l : List String) (r : AnalysisResult),
      (r.risk_level = "安全" ∨ r.risk_level = "注意" ∨ r.risk_level = "危険") →
      (∃ p ∈ l, strStartsWith normalized p = true) →
      ((List.foldl (prefixStep normalized) r l).risk_level = "注意" ∨
       (List.foldl (prefixStep normalized) r l).risk_level = "危険") := by
  intro l
  induction l with
  | nil =>
    intro r _ hex
    simp at hex
  | cons a l ih =>
    intro r hr hex
    by_cases hm : strStartsWith normalized a = true
    · have h1 := prefixStep_establishes normalized r a hr hm
      exact foldl_invariant
        (fun x => x.risk_level = "注意" ∨ x.risk_level = "危険")
        (prefixStep normalized)
        (fun x p hx => caution_pres_of_cases hx (prefixStep_risk_cases normalized x p))
        l _ h1
    · have hstep : prefixStep normalized r a = r := by
        unfold prefixStep
        rw [if_neg hm]
      rw [List.foldl_cons, hstep]
      rcases hex with ⟨p, hp, hps⟩
      rcases List.mem_cons.mp hp with h | h
      · exact absurd (h ▸ hps) hm
      · exact ih r hr ⟨p, h, hps⟩

/-- If a suspicious prefix matches the normalized number, the whole rule
chain ends at least at 注意 (starting from a level in the working set). -/
theorem runChecks_caution (db : ScamDatabase) (number normalized : String)
    (use_ai ai_enabled : Bool) (ai_return : Option AiAnalysis) (r : AnalysisResult)
    (hr : r.risk_level = "安全" ∨ r.risk_level = "注意" ∨ r.risk_level = "危険")
    (hp : ∃ p ∈ db.suspicious_prefixes, strStartsWith normalized p = true) :
    (runChecks db number normalized use_ai ai_enabled ai_return r).risk_level = "注意" ∨
    (runChecks db number normalized use_ai ai_enabled ai_return r).risk_level = "危険" := by
  have h1 : (scamCheck db number r).risk_level = "安全" ∨
      (scamCheck db number r).risk_level = "注意" ∨
      (scamCheck db number r).risk_level = "危険" :=
    levels_pres_of_cases hr (scamCheck_risk_cases db number r)
  have h2 := foldl_invariant
    (fun x => x.risk_level = "安全" ∨ x.risk_level = "注意" ∨ x.risk_level = "危険")
    (reportedStep number)
    (fun x c hx => levels_pres_of_cases hx (reportedStep_risk_cases number x c))
    db.reported_cases _ h1
  have h3 := prefixCheck_establishes normalized db.suspicious_prefixes _ h2 hp
  have h4 := foldl_invariant
    (fun x => x.risk_level = "注意" ∨ x.risk_level = "危険")
    (patternStep number)
    (fun x p hx => caution_pres_of_cases hx (patternStep_risk_cases number x p))
    db.warning_patterns _ h3
  have h5 := caution_pres_of_cases h4 (internationalCheck_risk_cases number normalized
    (patternCheck db number (prefixCheck db normalized
      (reportedCheck db number (scamCheck db number r)))))
  have h6 : (safeRecommendations (detailsAppend number normalized
        (internationalCheck number normalized
          (patternCheck db number (prefixCheck db normalized
            (reportedCheck db number (scamCheck db number r))))))).risk_level = "注意" ∨
      (safeRecommendations (detailsAppend number normalized
        (internationalCheck number normalized
          (patternCheck db number (prefixCheck db normalized
            (reportedCheck db number (scamCheck db number r))))))).risk_level = "危険" := by
    rw [safeRecommendations_risk, detailsAppend_risk]
    exact h5
  exact caution_pres_of_cases h6 (aiStep_risk_cases use_ai ai_enabled ai_return _)

/-! ## Claim theorems -/

/-- C1: for every input whose normalized form is 110, 119 or 118,
`analyze_phone_number` returns risk level exactly 緊急 (emergency), and the
early return skips the scam-list, reported-case, prefix, pattern and
international rules, so the result carries no warnings from them: its
warnings list is empty. -/
theorem emergency_short_circuit (db : ScamDatabase) (number ts : String)
    (use_ai ai_enabled : Bool) (ai_return : Option AiAnalysis)
    (history : List AnalysisResult) (h : normalizeNumber number ∈ emergencyNumbers) :
    (analyzePhoneNumber db number ts use_ai ai_enabled ai_return history).1.risk_level = "緊急" ∧
    (analyzePhoneNumber db number ts use_ai ai_enabled ai_return history).1.warnings = [] := by
  rw [analyzePhoneNumber_emergency db number ts use_ai ai_enabled ai_return history h]
  exact ⟨rfl, rfl⟩

/-- Witness for C1: the emergency number 110 against the default database. -/
theorem emergency_short_circuit_witness :
    (analyzePhoneNumber defaultScamDatabase "110" "2024-01-01 00:00:00" false false none
      []).1.risk_level = "緊急" ∧
    (analyzePhoneNumber defaultScamDatabase "110" "2024-01-01 00:00:00" false false none
      []).1.warnings = [] :=
  emergency_short_circuit defaultScamDatabase "110" "2024-01-01 00:00:00" false false none []
    (by decide)

/-- C2: every number present in the known-scam list (whose normalized form
is not an emergency number) is classified 危険 (danger) and the scam
warning string is in the result warnings. -/
theorem known_scam_number_danger (db : ScamDatabase) (number ts : String)
    (use_ai ai_enabled : Bool) (ai_return : Option AiAnalysis)
    (history : List AnalysisResult)
    (hmem : number ∈ db.known_scam_numbers)
    (hne : normalizeNumber number ∉ emergencyNumbers) :
    (analyzePhoneNumber db number ts use_ai ai_enabled ai_return history).1.risk_level = "危険" ∧
    "🚨 既知の詐欺電話番号です！" ∈
      (analyzePhoneNumber db number ts use_ai ai_enabled ai_return history).1.warnings := by
  rw [analyzePhoneNumber_nonemergency db number ts use_ai ai_enabled ai_return history hne]
  exact runChecks_danger db number (normalizeNumber number) use_ai ai_enabled ai_return _ hmem

/-- Witness for C2: the known scam number 0120-999-999 of the default
database. -/
theorem known_scam_number_danger_witness :
    (analyzePhoneNumber defaultScamDatabase "0120-999-999" "2024-01-01 00:00:00" false false none
      []).1.risk_level = "危険" ∧
    "🚨 既知の詐欺電話番号です！" ∈
      (analyzePhoneNumber defaultScamDatabase "0120-999-999" "2024-01-01 00:00:00" false false
        none []).1.warnings :=
  known_scam_number_danger defaultScamDatabase "0120-999-999" "2024-01-01 00:00:00" false false
    none [] (by decide) (by decide)

/-- C3: within one evaluation, each later rule of the chain (reported-case
loop, suspicious-prefix loop, warning-pattern loop, international check,
AI enrichment) never lowers the risk level: starting from any non-emergency
level, the rank in the order 安全 < 注意 < 危険 is monotone. -/
theorem risk_level_never_downgraded (db : ScamDatabase) (number normalized : String)
    (use_ai ai_enabled : Bool) (ai_return : Option AiAnalysis) (r : AnalysisResult)
    (h : r.risk_level ≠ "緊急") :
    riskRank r.risk_level ≤ riskRank (reportedCheck db number r).risk_level ∧
    riskRank r.risk_level ≤ riskRank (prefixCheck db normalized r).risk_level ∧
    riskRank r.risk_level ≤ riskRank (patternCheck db number r).risk_level ∧
    riskRank r.risk_level ≤ riskRank (internationalCheck number normalized r).risk_level ∧
    riskRank r.risk_level ≤ riskRank (aiStep use_ai ai_enabled ai_return r).risk_level := by
  refine ⟨?_, ?_, ?_, ?_, ?_⟩
  · exact foldl_rank_mono (reportedStep number)
      (fun x c => reportedStep_risk_cases number x c) db.reported_cases r h
  · exact foldl_rank_mono (prefixStep normalized)
      (fun x p => prefixStep_risk_cases normalized x p) db.suspicious_prefixes r h
  · exact foldl_rank_mono (patternStep number)
      (fun x p => patternStep_risk_cases number x p) db.warning_patterns r h
  · exact rank_mono_of_cases h (internationalCheck_risk_cases number normalized r)
  · exact rank_mono_of_cases h (aiStep_risk_cases use_ai ai_enabled ai_return r)

/-- Witness for C3: the fresh 安全 record for 050-1111-2222 against the
default database. -/
theorem risk_level_never_downgraded_witness :
    riskRank (initResult "050-1111-2222" "t").risk_level ≤
      riskRank (reportedCheck defaultScamDatabase "050-1111-2222"
        (initResult "050-1111-2222" "t")).risk_level ∧
    riskRank (initResult "050-1111-2222" "t").risk_level ≤
      riskRank (prefixCheck defaultScamDatabase "05011112222"
        (initResult "050-1111-2222" "t")).risk_level ∧
    riskRank (initResult "050-1111-2222" "t").risk_level ≤
      riskRank (patternCheck defaultScamDatabase "050-1111-2222"
        (initResult "050-1111-2222" "t")).risk_level ∧
    riskRank (initResult "050-1111-2222" "t").risk_level ≤
      riskRank (internationalCheck "050-1111-2222" "05011112222"
        (initResult "050-1111-2222" "t")).risk_level ∧
    riskRank (initResult "050-1111-2222" "t").risk_level ≤
      riskRank (aiStep false false none (initResult "050-1111-2222" "t")).risk_level :=
  risk_level_never_downgraded defaultScamDatabase "050-1111-2222" "05011112222" false false none
    (initResult "050-1111-2222" "t") (by decide)

/-- C4: every non-emergency number matching a configured suspicious prefix
ends with risk level at least 注意 (caution), never 安全. -/
theorem suspicious_prefix_min_caution (db : ScamDatabase) (number ts : String)
    (use_ai ai_enabled : Bool) (ai_return : Option AiAnalysis)
    (history : List AnalysisResult)
    (hne : normalizeNumber number ∉ emergencyNumbers)
    (hp : ∃ p ∈ db.suspicious_prefixes, strStartsWith (normalizeNumber number) p = true) :
    (analyzePhoneNumber db number ts use_ai ai_enabled ai_return history).1.risk_level = "注意" ∨
    (analyzePhoneNumber db number ts use_ai ai_enabled ai_return history).1.risk_level = "危険" := by
  rw [analyzePhoneNumber_nonemergency db number ts use_ai ai_enabled ai_return history hne]
  exact runChecks_caution db number (normalizeNumber number) use_ai ai_enabled ai_return _
    (Or.inl rfl) hp

/-- Witness for C4: 050-1111-2222 matches the suspicious prefix 050. -/
theorem suspicious_prefix_min_caution_witness :
    (analyzePhoneNumber defaultScamDatabase "050-1111-2222" "2024-01-01 00:00:00" false false
      none []).1.risk_level = "注意" ∨
    (analyzePhoneNumber defaultScamDatabase "050-1111-2222" "2024-01-01 00:00:00" false false
      none []).1.risk_level = "危険" :=
  suspicious_prefix_min_caution defaultScamDatabase "050-1111-2222" "2024-01-01 00:00:00" false
    false none [] (by decide) (by decide)

/-- A first report for a number creates a single fresh case with count
one. -/
theorem submitReport_base (n d c t : String) (hne : n ≠ "") :
    submitReport [] n d c t =
      [{ number := n, description := "[" ++ c ++ "] " ++ d, timestamp := t, reports := 1 }] := by
  unfold submitReport
  rw [if_neg hne]
  simp

/-- C5: two reports for the same number yield exactly one case with count 2
whose description is the first description followed by the follow-up tag
and the second description; reports for two distinct numbers yield two
independent cases with count 1 each. -/
theorem report_intake_aggregation (n1 n2 d1 c1 t1 d2 c2 t2 : String)
    (h1 : n1 ≠ "") (h2 : n2 ≠ "") :
    (submitReport (submitReport [] n1 d1 c1 t1) n1 d2 c2 t2 =
      [{ number := n1,
         description := "[" ++ c1 ++ "] " ++ d1 ++ "\n[追加通報 " ++ "2" ++ "] " ++ d2,
         timestamp := t1, reports := 2 }]) ∧
    (n1 ≠ n2 →
      submitReport (submitReport [] n1 d1 c1 t1) n2 d2 c2 t2 =
      [{ number := n1, description := "[" ++ c1 ++ "] " ++ d1, timestamp := t1, reports := 1 },
       { number := n2, description := "[" ++ c2 ++ "] " ++ d2, timestamp := t2, reports := 1 }]) := by
  constructor
  · rw [submitReport_base n1 d1 c1 t1 h1]
    unfold submitReport
    rw [if_neg h1]
    have hany : ([{ number := n1, description := "[" ++ c1 ++ "] " ++ d1,
                    timestamp := t1, reports := 1 }] : List ReportCase).any
        (fun c => c.number == n1) = true := by simp
    rw [if_pos hany]
    unfold appendFollowUp
    rw [if_pos rfl]
    have ht : toString (1 + 1 : Nat) = "2" := rfl
    simp [ht]
  · intro h12
    rw [submitReport_base n1 d1 c1 t1 h1]
    unfold submitReport
    rw [if_neg h2]
    have hany : ([{ number := n1, description := "[" ++ c1 ++ "] " ++ d1,
                    timestamp := t1, reports := 1 }] : List ReportCase).any
        (fun c => c.number == n2) = false := by
      simp [h12]
    rw [if_neg (by simp [hany])]
    rfl

/-- Witness for C5: two reports for 090-1234-5678, then a report for a
different number. -/
theorem report_intake_aggregation_witness :
    (submitReport (submitReport [] "090-1234-5678" "不審な勧誘" "詐欺" "t1")
        "090-1234-5678" "再度の着信" "迷惑営業" "t2" =
      [{ number := "090-1234-5678",
         description := "[" ++ "詐欺" ++ "] " ++ "不審な勧誘" ++ "\n[追加通報 " ++ "2" ++ "] " ++ "再度の着信",
         timestamp := "t1", reports := 2 }]) ∧
    ("090-1234-5678" ≠ "03-0000-0000" →
      submitReport (submitReport [] "090-1234-5678" "不審な勧誘" "詐欺" "t1")
        "03-0000-0000" "再度の着信" "迷惑営業" "t2" =
      [{ number := "090-1234-5678", description := "[" ++ "詐欺" ++ "] " ++ "不審な勧誘",
         timestamp := "t1", reports := 1 },
       { number := "03-0000-0000", description := "[" ++ "迷惑営業" ++ "] " ++ "再度の着信",
         timestamp := "t2", reports := 1 }]) :=
  report_intake_aggregation "090-1234-5678" "03-0000-0000" "不審な勧誘" "詐欺" "t1"
    "再度の着信" "迷惑営業" "t2" (by decide) (by decide)

/-- C6 counterexample: normalization only deletes separators, so an input
carrying a hash mark is returned unchanged and the normalized form is not
made of digits and plus signs only. -/
theorem normalization_keeps_nondigits :
    normalizeNumber "#9110" = "#9110" ∧
    (normalizeNumber "#9110").data.all (fun c => c.isDigit || c == '+') = false := by
  constructor
  · rfl
  · decide

/-- C6 (amended): the normalization step only removes separator characters
(hyphens, whitespace, parentheses); whenever the input consists of digits,
plus signs and separators, the normalized form consists of digits and plus
signs only. -/
theorem normalization_digits_plus (s : String)
    (h : s.data.all (fun c => c.isDigit || c == '+' || isSeparator c) = true) :
    (normalizeNumber s).data.all (fun c => c.isDigit || c == '+') = true := by
  rw [List.all_eq_true] at h ⊢
  intro c hc
  rw [normalizeNumber_data, List.mem_filter] at hc
  have h1 := h c hc.1
  have h2 := hc.2
  simp only [Bool.or_eq_true] at h1 ⊢
  rcases h1 with (h1 | h1) | h1
  · left; exact h1
  · right; exact h1
  · simp [h1] at h2

/-- Witness for the amended C6: a digits-and-hyphens input. -/
theorem normalization_digits_plus_witness :
    (normalizeNumber "0120-999-999").data.all (fun c => c.isDigit || c == '+') = true :=
  normalization_digits_plus "0120-999-999" (by decide)

/-- C7 counterexample: checking the emergency number 110 does not append to
the history, so the history does not grow by one on every check. -/
theorem emergency_check_not_recorded :
    (analyzePhoneNumber defaultScamDatabase "110" "2024-01-01 00:00:00" false false none
      []).2.length ≠ 1 := by
  rw [analyzePhoneNumber_emergency defaultScamDatabase "110" "2024-01-01 00:00:00" false false
    none [] (by decide)]
  decide

/-- C7 (amended): the result of every non-emergency check is appended to
the in-memory history, which grows by exactly that one record; for
emergency numbers the early return leaves the history unchanged. -/
theorem history_append_per_check (db : ScamDatabase) (number ts : String)
    (use_ai ai_enabled : Bool) (ai_return : Option AiAnalysis)
    (history : List AnalysisResult) :
    (normalizeNumber number ∉ emergencyNumbers →
      (analyzePhoneNumber db number ts use_ai ai_enabled ai_return history).2 =
        history ++ [(analyzePhoneNumber db number ts use_ai ai_enabled ai_return history).1]) ∧
    (normalizeNumber number ∈ emergencyNumbers →
      (analyzePhoneNumber db number ts use_ai ai_enabled ai_return history).2 = history) := by
  constructor
  · intro h
    rw [analyzePhoneNumber_nonemergency db number ts use_ai ai_enabled ai_return history h]
  · intro h
    rw [analyzePhoneNumber_emergency db number ts use_ai ai_enabled ai_return history h]

/-- Witness for the amended C7: a plain landline number is appended. -/
theorem history_append_per_check_witness :
    (analyzePhoneNumber defaultScamDatabase "03-5555-6666" "2024-01-01 00:00:00" false false
      none []).2 =
      [] ++ [(analyzePhoneNumber defaultScamDatabase "03-5555-6666" "2024-01-01 00:00:00" false
        false none []).1] :=
  (history_append_per_check defaultScamDatabase "03-5555-6666" "2024-01-01 00:00:00" false false
    none []).1 (by decide)

/-- C8: normalization is idempotent: normalizing an already-normalized
number yields the same string. -/
theorem normalizeNumber_idempotent (s : String) :
    normalizeNumber (normalizeNumber s) = normalizeNumber s := by
  simp [normalizeNumber, List.filter_filter]

/-- C9: when the AI response text is not parseable, the number-enrichment
path returns the stub record whose summary is the first 200 characters of
the raw response, and the conversation path returns the record whose
explanation is the first 200 characters of the raw response; both paths
are total functions of the response, so neither raises. -/
theorem parse_failure_fallback (parseNum : String → Option AiAnalysis)
    (parseConv : String → Option ConversationAnalysis) (t1 t2 : String)
    (h1 : parseNum t1 = none) (h2 : parseConv t2 = none) :
    analyzeWithGeminiParse parseNum t1 = geminiFallback t1 ∧
    (analyzeWithGeminiParse parseNum t1).summary = takeChars t1 200 ∧
    analyzeConversationParse parseConv t2 = conversationFallback t2 ∧
    (analyzeConversationParse parseConv t2).explanation = some (takeChars t2 200) := by
  unfold analyzeWithGeminiParse analyzeConversationParse
  rw [h1, h2]
  exact ⟨rfl, rfl, rfl, rfl⟩

/-- Witness for C9: a parse function that always fails. -/
theorem parse_failure_fallback_witness :
    analyzeWithGeminiParse (fun _ => none) "応答テキスト" = geminiFallback "応答テキスト" ∧
    (analyzeWithGeminiParse (fun _ => none) "応答テキスト").summary =
      takeChars "応答テキスト" 200 ∧
    analyzeConversationParse (fun _ => none) "会話応答" = conversationFallback "会話応答" ∧
    (analyzeConversationParse (fun _ => none) "会話応答").explanation =
      some (takeChars "会話応答" 200) :=
  parse_failure_fallback (fun _ => none) (fun _ => none) "応答テキスト" "会話応答" rfl rfl

/-- The default database extended with a reported case stored under the
separator form 03-1234-5678. -/
def scamDbWithReport : ScamDatabase :=
  { defaultScamDatabase with
    reported_cases := [{ number := "03-1234-5678", description := "[詐欺] 不審な電話",
                         timestamp := "t0", reports := 3 }] }

/-- C10: the known-scam check and the reported-case lookup compare the raw
input string for exact equality, not the normalized form: 03-1234-5678 is
in the scam list and has a reported case, yet its separator-free form
0312345678 is classified 安全 with no warnings at all. -/
theorem raw_string_exact_match_only :
    ("03-1234-5678" ∈ scamDbWithReport.known_scam_numbers ∧
     scamDbWithReport.reported_cases.any (fun c => c.number == "03-1234-5678") = true ∧
     normalizeNumber "03-1234-5678" = "0312345678") ∧
    (analyzePhoneNumber scamDbWithReport "0312345678" "2024-01-01 00:00:00" false false none
      []).1.risk_level = "安全" ∧
    (analyzePhoneNumber scamDbWithReport "0312345678" "2024-01-01 00:00:00" false false none
      []).1.warnings = [] := by
  decide
